import Mathlib

/-!
# push-to-talk (Windows): key-code translation and session lifecycle

A shallow embedding of `src/push-to-talk/src/windows/push-to-talk.cc`.

* `ConvertKeyCodeToString` is the pure translation function (lines 140-238).
* `HookCallback`, `ReleaseTSFN`, `Stop`, `Start` act on an explicit `State`
  holding the program's globals (`tsfn`, `nativeThread`, `_hook`, `kbdStruct`)
  together with the part of the environment they talk to.
* `nativeThreadBody` is the body of the worker thread (lines 98-120) as a
  function from what the operating system answers to the list of calls made.

The constants of `Windows.h` are given their documented values.
-/

namespace PushToTalk

/-! ## Constants of `Windows.h` -/

def WM_KEYDOWN : Nat := 0x100
def WM_KEYUP : Nat := 0x101
def WM_SYSKEYDOWN : Nat := 0x104
def WM_SYSKEYUP : Nat := 0x105
def WM_USER : Nat := 0x400

/-- Line 17: `const UINT STOP_MESSAGE = WM_USER + 1;` -/
def STOP_MESSAGE : Nat := WM_USER + 1

def VK_BACK : Int := 0x08
def VK_TAB : Int := 0x09
def VK_RETURN : Int := 0x0D
def VK_SHIFT : Int := 0x10
def VK_CONTROL : Int := 0x11
def VK_MENU : Int := 0x12
def VK_CAPITAL : Int := 0x14
def VK_ESCAPE : Int := 0x1B
def VK_SPACE : Int := 0x20
def VK_PRIOR : Int := 0x21
def VK_NEXT : Int := 0x22
def VK_END : Int := 0x23
def VK_HOME : Int := 0x24
def VK_LEFT : Int := 0x25
def VK_UP : Int := 0x26
def VK_RIGHT : Int := 0x27
def VK_DOWN : Int := 0x28
def VK_SNAPSHOT : Int := 0x2C
def VK_INSERT : Int := 0x2D
def VK_DELETE : Int := 0x2E
def VK_LWIN : Int := 0x5B
def VK_RWIN : Int := 0x5C
def VK_F1 : Int := 0x70
def VK_F20 : Int := 0x83
def VK_LSHIFT : Int := 0xA0
def VK_RSHIFT : Int := 0xA1
def VK_LCONTROL : Int := 0xA2
def VK_RCONTROL : Int := 0xA3
def VK_LMENU : Int := 0xA4
def VK_RMENU : Int := 0xA5

/-! ## Machine integers -/

/-- Conversion of a `DWORD` (unsigned 32 bit) to `int`, as happens when
`kbdStruct.vkCode` is passed to `ConvertKeyCodeToString(int)`. -/
def dwordToInt (v : Nat) : Int :=
  if v % 2 ^ 32 < 2 ^ 31 then ((v % 2 ^ 32 : Nat) : Int)
  else ((v % 2 ^ 32 : Nat) : Int) - 2 ^ 32

/-- Conversion of an `int` to `UINT`, as happens when `key_stroke` is passed to
`MapVirtualKeyExA(UINT, ...)`. -/
def intToUint (k : Int) : Nat := (k % 2 ^ 32).toNat

/-! ## `ConvertKeyCodeToString` (lines 140-238)

The keyboard layout enters only through
`MapVirtualKeyExA(key_stroke, MAPVK_VK_TO_CHAR, GetKeyboardLayout(0))`, which is
a parameter here: a function from the `UINT` code to the `UINT` it returns.
The result is stored in a `char`, so only its low byte is written. -/

/-- The `switch` of lines 147-235 with its `default:` branch; `output` starts
empty, each case writes one literal. -/
def ConvertKeyCodeToString (MapVirtualKeyExA : Nat → Nat) (key_stroke : Int) : String :=
  if key_stroke = 1 ∨ key_stroke = 2 then
    "" -- ignore mouse clicks
  else if key_stroke = VK_MENU ∨ key_stroke = VK_LMENU ∨ key_stroke = VK_RMENU then "Alt"
  else if key_stroke = VK_LWIN ∨ key_stroke = VK_RWIN then "Meta"
  else if key_stroke = VK_BACK then "Backspace"
  else if key_stroke = VK_RETURN then "Enter"
  else if key_stroke = VK_SPACE then "Spacebar"
  else if key_stroke = VK_TAB then "Tab"
  else if key_stroke = VK_SHIFT ∨ key_stroke = VK_LSHIFT ∨ key_stroke = VK_RSHIFT then "Shift"
  else if key_stroke = VK_CONTROL ∨ key_stroke = VK_LCONTROL ∨ key_stroke = VK_RCONTROL then
    "Control"
  else if key_stroke = VK_ESCAPE then "Escape"
  else if key_stroke = VK_END then "End"
  else if key_stroke = VK_HOME then "Home"
  else if key_stroke = VK_LEFT then "ArrowLeft"
  else if key_stroke = VK_UP then "ArrowUp"
  else if key_stroke = VK_RIGHT then "ArrowRight"
  else if key_stroke = VK_DOWN then "ArrowDown"
  else if key_stroke = VK_CAPITAL then "CapsLock"
  else if key_stroke = VK_PRIOR then "PageUp"
  else if key_stroke = VK_NEXT then "PageDown"
  else if key_stroke = VK_DELETE then "Delete"
  else if key_stroke = VK_INSERT then "Insert"
  else if key_stroke = VK_SNAPSHOT then "PrintScreen"
  else if key_stroke = 190 ∨ key_stroke = 110 then "."
  else if key_stroke = 189 ∨ key_stroke = 109 then "-"
  else if key_stroke ≥ VK_F1 ∧ key_stroke ≤ VK_F20 then
    "F" ++ toString (key_stroke - VK_F1 + 1)
  else
    -- map virtual key according to keyboard layout
    String.singleton (Char.ofNat (MapVirtualKeyExA (intToUint key_stroke) % 256))

/-! ## Program state

The globals of lines 10-26, and the part of the environment that `Start`,
`Stop` and the hook callback act on.

Environment (Node-API and `std::thread`), as documented for those libraries:

* `ThreadSafeFunction::BlockingCall` appends the closure to the queue of the
  thread-safe function and returns; the closures are run later, first in first
  out, by the loop thread (the thread that runs JavaScript). The queue is
  unlimited (`0` at line 47), so the call also never waits for room.
* `ThreadSafeFunction::Release` takes the one thread of line 48 away; the
  function is then finalized by the loop thread after what is still queued has
  run. The finalizer of lines 49-60 therefore runs in a later turn of the loop
  thread, never inside `Release`.
* Move assignment to a `std::thread` that is joinable calls `std::terminate`.

The work that awaits the loop thread is kept in one list, `queue`. -/

/-- The `KBDLLHOOKSTRUCT` of `Windows.h`; the program reads `vkCode` only. -/
structure KBDLLHOOKSTRUCT where
  vkCode : Nat
  scanCode : Nat
  flags : Nat
  time : Nat
  dwExtraInfo : Nat
  deriving DecidableEq, Repr

/-- Work awaiting the loop thread. -/
inductive Job where
  /-- The closure of lines 77-83 queued on the thread-safe function bound to
  `jsCallback`. `[=]` copies the local `wParam` into it; `kbdStruct` is a
  global and is not captured. -/
  | call (jsCallback : Nat) (wParam : Nat)
  /-- The finalizer of lines 49-60, due once the function has been released. -/
  | finalize
  deriving DecidableEq, Repr

/-- What the program does to the outside, in the order it does it. -/
inductive Action where
  /-- A line written to `std::cout`. -/
  | log (msg : String)
  /-- Line 43: `Napi::ThreadSafeFunction::New` -/
  | newTSFN (jsCallback : Nat)
  /-- Line 130: `tsfn.Release()` -/
  | release (jsCallback : Nat)
  /-- Line 62: a worker thread is started. -/
  | spawn (thread : Nat)
  /-- A call of `std::terminate`. -/
  | terminate
  /-- Line 53: `PostThreadMessageA(.., STOP_MESSAGE, ..)` to the thread named. -/
  | postStop (thread : Option Nat)
  /-- Line 59: `nativeThread.join()` has returned for the thread named. -/
  | join (thread : Nat)
  /-- Line 59 on a thread object that is not joinable: `join` throws. -/
  | joinThrows
  /-- Line 78: `jsCallback.Call({key, isKeyUp})` -/
  | jsCall (jsCallback : Nat) (key : String) (isKeyUp : Bool)
  deriving DecidableEq, Repr

structure State where
  /-- Line 10; `none` is the empty (null) function, `some f` one bound to the
  JavaScript function `f`. -/
  tsfn : Option Nat
  /-- Line 14; `some t` when the object owns (is joinable for) thread `t`. -/
  nativeThread : Option Nat
  /-- Line 21; `none` is the null handle. -/
  _hook : Option Nat
  /-- Line 26 -/
  kbdStruct : KBDLLHOOKSTRUCT
  /-- Work awaiting the loop thread, oldest first. -/
  queue : List Job
  /-- Worker threads that were started and have not ended. -/
  running : List Nat
  /-- Number of worker threads started so far, the id of the next thread. -/
  spawned : Nat
  /-- Whether `std::terminate` has been called. -/
  terminated : Bool
  trace : List Action
  deriving DecidableEq, Repr

/-- The state when the module is loaded: globals zero-initialised. -/
def State.init : State :=
  { tsfn := none, nativeThread := none, _hook := none,
    kbdStruct := ⟨0, 0, 0, 0, 0⟩,
    queue := [], running := [], spawned := 0, terminated := false, trace := [] }

def State.emit (s : State) (a : Action) : State :=
  { s with trace := s.trace ++ [a] }

/-- Lines 128-136. `Release` of a bound function with its one thread returns
`napi_ok`. -/
def ReleaseTSFN (s : State) : State :=
  match s.tsfn with
  | some f =>
    { s with tsfn := none, queue := s.queue ++ [Job.finalize],
             trace := s.trace ++ [Action.release f] }
  | none => s

/-- Line 125 -/
def Stop (s : State) : State := ReleaseTSFN s

/-- Lines 34-122, up to the point where the new thread runs on its own. -/
def Start (s : State) (jsCallback : Nat) : State :=
  let s1 := s.emit (Action.log "Start!!!")
  -- Stop if already running
  let s2 := ReleaseTSFN s1
  let s3 := { s2 with tsfn := some jsCallback,
                      trace := s2.trace ++ [Action.newTSFN jsCallback] }
  -- `std::thread([] { ... })`: the temporary is constructed, its thread starts
  let t := s3.spawned
  let s4 := { s3 with spawned := t + 1, running := s3.running ++ [t],
                      trace := s3.trace ++ [Action.spawn t] }
  -- `nativeThread = ...`: move assignment
  match s4.nativeThread with
  | some _ => { s4 with terminated := true, trace := s4.trace ++ [Action.terminate] }
  | none => { s4 with nativeThread := some t }

/-- Lines 49-60, run by the loop thread. `join` returns when the thread has
ended, which it does on `STOP_MESSAGE` (see `pump`). -/
def finalizer (s : State) : State :=
  let s1 := s.emit (Action.log "Clean up function called")
  let s2 := s1.emit (Action.postStop s1.nativeThread)
  let s3 := s2.emit (Action.log ("nativeThread.joinable() returned: "
              ++ (if s2.nativeThread.isSome then "1" else "0")))
  match s3.nativeThread with
  | some t =>
    { s3 with nativeThread := none, running := s3.running.erase t,
              trace := s3.trace ++ [Action.join t] }
  | none => s3.emit Action.joinThrows

/-- Line 81-82: the second argument of the call. -/
def isKeyUp (wParam : Nat) : Bool :=
  wParam == WM_KEYUP || wParam == WM_SYSKEYUP

/-- One turn of the loop thread: the oldest job is taken and run. For a queued
closure that is lines 78-82, which read `kbdStruct.vkCode` when they run. -/
def loopTurn (MapVirtualKeyExA : Nat → Nat) (s : State) : State :=
  match s.queue with
  | [] => s
  | Job.call f wParam :: rest =>
    { s with queue := rest,
             trace := s.trace ++ [Action.jsCall f
               (ConvertKeyCodeToString MapVirtualKeyExA (dwordToInt s.kbdStruct.vkCode))
               (isKeyUp wParam)] }
  | Job.finalize :: rest => finalizer { s with queue := rest }

/-- The call `CallNextHookEx(_hook, nCode, wParam, lParam)` whose result the
hook callback returns. -/
structure NextHookCall where
  hook : Option Nat
  nCode : Int
  wParam : Nat
  lParam : KBDLLHOOKSTRUCT
  deriving DecidableEq, Repr

/-- Lines 65-96; `lParam` is the structure pointed to. -/
def HookCallback (s : State) (nCode : Int) (wParam : Nat) (lParam : KBDLLHOOKSTRUCT) :
    State × NextHookCall :=
  let s1 :=
    if nCode ≥ 0 then
      match s.tsfn with
      | some f =>
        -- the action is valid: HC_ACTION and tsfn is not released.
        { s with kbdStruct := lParam, queue := s.queue ++ [Job.call f wParam] }
      | none => s
    else s
  (s1, { hook := s1._hook, nCode := nCode, wParam := wParam, lParam := lParam })

/-- Lines 103-105, run by the worker thread: `result` is what
`SetWindowsHookEx` returns. -/
def installHook (s : State) (result : Option Nat) : State :=
  let s1 := { s with _hook := result }
  if result.isNone then s1.emit (Action.log "Failed to install hook!") else s1

/-- What can happen next. -/
inductive Op where
  | start (jsCallback : Nat)
  | stop
  | installHook (result : Option Nat)
  | key (nCode : Int) (wParam : Nat) (lParam : KBDLLHOOKSTRUCT)
  | loopTurn
  deriving DecidableEq, Repr

def Op.isStart : Op → Bool
  | Op.start _ => true
  | _ => false

/-- One step; nothing happens any more once `std::terminate` was called. -/
def step (MapVirtualKeyExA : Nat → Nat) (s : State) (op : Op) : State :=
  if s.terminated then s
  else
    match op with
    | Op.start f => Start s f
    | Op.stop => Stop s
    | Op.installHook r => installHook s r
    | Op.key nCode wParam lParam => (HookCallback s nCode wParam lParam).1
    | Op.loopTurn => loopTurn MapVirtualKeyExA s

def run (MapVirtualKeyExA : Nat → Nat) (s : State) (ops : List Op) : State :=
  ops.foldl (step MapVirtualKeyExA) s

/-- A key event carrying the virtual key code `vk`. -/
def keyEvent (vk : Nat) : KBDLLHOOKSTRUCT := ⟨vk, 0, 0, 0, 0⟩

/-- The calls of JavaScript functions in a trace, in order. -/
def jsCalls : List Action → List (Nat × String × Bool)
  | [] => []
  | Action.jsCall f k u :: rest => (f, k, u) :: jsCalls rest
  | _ :: rest => jsCalls rest

/-! ## The worker thread (lines 98-120) -/

/-- What one call of `GetMessage` answers: `bRet` and `msg.message`. -/
structure GetMessageResult where
  bRet : Int
  message : Nat
  deriving DecidableEq, Repr

/-- The calls the worker thread makes. -/
inductive ThreadAction where
  | setWindowsHookEx
  | log (msg : String)
  | getMessage
  | postQuitMessage (code : Int)
  | translateMessage (message : Nat)
  | dispatchMessage (message : Nat)
  deriving DecidableEq, Repr

/-- Lines 110-120 against the answers `GetMessage` gives, oldest first. The
result is the calls made and whether the loop has ended; with no answer left
the thread is waiting inside `GetMessage`. -/
def pump : List GetMessageResult → List ThreadAction × Bool
  | [] => ([ThreadAction.getMessage], false)
  | r :: rest =>
    if r.bRet = 0 then ([ThreadAction.getMessage], true)
    else
      let body :=
        if r.bRet = -1 then
          [ThreadAction.log "some error occurred in the message loop"]
        else if r.message = STOP_MESSAGE then [ThreadAction.postQuitMessage 0]
        else [ThreadAction.translateMessage r.message, ThreadAction.dispatchMessage r.message]
      (ThreadAction.getMessage :: body ++ (pump rest).1, (pump rest).2)

/-- Lines 98-120: `hookResult` is what `SetWindowsHookEx` returns. The result
is the value left in `_hook`, the calls made, and whether the thread function
has returned. -/
def nativeThreadBody (hookResult : Option Nat) (answers : List GetMessageResult) :
    Option Nat × List ThreadAction × Bool :=
  let install :=
    if hookResult.isNone then
      [ThreadAction.setWindowsHookEx, ThreadAction.log "Failed to install hook!"]
    else [ThreadAction.setWindowsHookEx]
  (hookResult, install ++ (pump answers).1, (pump answers).2)

/-! ## Auxiliary facts -/

theorem ReleaseTSFN_of_unbound (s : State) (h : s.tsfn = none) : ReleaseTSFN s = s := by
  unfold ReleaseTSFN
  rw [h]

theorem ReleaseTSFN_unbinds (s : State) : (ReleaseTSFN s).tsfn = none := by
  unfold ReleaseTSFN
  cases h : s.tsfn with
  | none => simpa using h
  | some f => rfl

theorem HookCallback_of_unbound (s : State) (h : s.tsfn = none) (nCode : Int) (wParam : Nat)
    (lParam : KBDLLHOOKSTRUCT) :
    HookCallback s nCode wParam lParam
      = (s, { hook := s._hook, nCode := nCode, wParam := wParam, lParam := lParam }) := by
  unfold HookCallback
  rw [h]
  split <;> rfl

theorem finalizer_tsfn (s : State) : (finalizer s).tsfn = s.tsfn := by
  unfold finalizer
  cases h : s.nativeThread <;> simp [State.emit, h]

theorem loopTurn_tsfn (f : Nat → Nat) (s : State) : (loopTurn f s).tsfn = s.tsfn := by
  unfold loopTurn
  split
  · rfl
  · rfl
  · rw [finalizer_tsfn]

theorem installHook_tsfn (s : State) (r : Option Nat) : (installHook s r).tsfn = s.tsfn := by
  unfold installHook
  cases r <;> simp [State.emit]

theorem step_keeps_unbound (f : Nat → Nat) (s : State) (op : Op) (h : s.tsfn = none)
    (hop : op.isStart = false) : (step f s op).tsfn = none := by
  unfold step
  split
  · exact h
  · cases op with
    | start g => simp [Op.isStart] at hop
    | stop => simpa [Stop] using ReleaseTSFN_unbinds s
    | installHook r => simpa [installHook_tsfn] using h
    | key nCode wParam lParam => simpa [HookCallback_of_unbound s h] using h
    | loopTurn => simpa [loopTurn_tsfn] using h

theorem run_keeps_unbound (f : Nat → Nat) (ops : List Op) :
    ∀ s : State, s.tsfn = none → (∀ op ∈ ops, op.isStart = false) → (run f s ops).tsfn = none := by
  induction ops with
  | nil => intro s h _; simpa [run] using h
  | cons op rest ih =>
    intro s h hops
    have h1 : (step f s op).tsfn = none :=
      step_keeps_unbound f s op h (hops op (List.mem_cons_self _ _))
    have h2 := ih (step f s op) h1 (fun o ho => hops o (List.mem_cons_of_mem _ ho))
    simpa [run] using h2

theorem pump_head (answers : List GetMessageResult) :
    ∃ rest, (pump answers).1 = ThreadAction.getMessage :: rest := by
  cases answers with
  | nil => exact ⟨[], rfl⟩
  | cons r rest =>
    unfold pump
    split
    · exact ⟨[], rfl⟩
    · exact ⟨_, rfl⟩

theorem pump_ends_iff (answers : List GetMessageResult) :
    (pump answers).2 = true ↔ ∃ r ∈ answers, r.bRet = 0 := by
  induction answers with
  | nil => simp [pump]
  | cons r rest ih =>
    unfold pump
    by_cases h : r.bRet = 0
    · simp [h]
    · simp [h, ih]

theorem isKeyUp_eq_decide (wParam : Nat) :
    isKeyUp wParam = decide (wParam = 0x101 ∨ wParam = 0x105) := by
  unfold isKeyUp WM_KEYUP WM_SYSKEYUP
  rw [Bool.eq_iff_iff]
  simp

/-! ## The claims -/

/-- C1: every named key of the lookup table is translated to its literal, for
every keyboard layout (the layout function `f` is arbitrary and does not occur
in any result). -/
theorem ConvertKeyCodeToString_named_keys (f : Nat → Nat) :
    ConvertKeyCodeToString f 18 = "Alt" ∧ ConvertKeyCodeToString f 164 = "Alt"
    ∧ ConvertKeyCodeToString f 165 = "Alt"
    ∧ ConvertKeyCodeToString f 91 = "Meta" ∧ ConvertKeyCodeToString f 92 = "Meta"
    ∧ ConvertKeyCodeToString f 8 = "Backspace"
    ∧ ConvertKeyCodeToString f 13 = "Enter"
    ∧ ConvertKeyCodeToString f 9 = "Tab"
    ∧ ConvertKeyCodeToString f 16 = "Shift" ∧ ConvertKeyCodeToString f 160 = "Shift"
    ∧ ConvertKeyCodeToString f 161 = "Shift"
    ∧ ConvertKeyCodeToString f 17 = "Control" ∧ ConvertKeyCodeToString f 162 = "Control"
    ∧ ConvertKeyCodeToString f 163 = "Control"
    ∧ ConvertKeyCodeToString f 27 = "Escape"
    ∧ ConvertKeyCodeToString f 35 = "End"
    ∧ ConvertKeyCodeToString f 36 = "Home"
    ∧ ConvertKeyCodeToString f 37 = "ArrowLeft"
    ∧ ConvertKeyCodeToString f 38 = "ArrowUp"
    ∧ ConvertKeyCodeToString f 39 = "ArrowRight"
    ∧ ConvertKeyCodeToString f 40 = "ArrowDown"
    ∧ ConvertKeyCodeToString f 20 = "CapsLock"
    ∧ ConvertKeyCodeToString f 33 = "PageUp"
    ∧ ConvertKeyCodeToString f 34 = "PageDown"
    ∧ ConvertKeyCodeToString f 46 = "Delete"
    ∧ ConvertKeyCodeToString f 45 = "Insert"
    ∧ ConvertKeyCodeToString f 44 = "PrintScreen"
    ∧ ConvertKeyCodeToString f 190 = "." ∧ ConvertKeyCodeToString f 110 = "."
    ∧ ConvertKeyCodeToString f 189 = "-" ∧ ConvertKeyCodeToString f 109 = "-" := by
  refine ⟨rfl, rfl, rfl, rfl, rfl, rfl, rfl, rfl, rfl, rfl, rfl, rfl, rfl, rfl, rfl, rfl,
    rfl, rfl, rfl, rfl, rfl, rfl, rfl, rfl, rfl, rfl, rfl, rfl, rfl, rfl, rfl⟩

/-- C2, as stated: the Space key (code 32) is not translated to "Space". -/
theorem ConvertKeyCodeToString_space_ne_Space :
    ConvertKeyCodeToString (fun _ => 0) 32 ≠ "Space" := by
  decide

/-- C2, amended: the Space key (VK_SPACE, code 32) is translated to the literal
"Spacebar", for every keyboard layout. -/
theorem ConvertKeyCodeToString_space (f : Nat → Nat) :
    VK_SPACE = 32 ∧ ConvertKeyCodeToString f VK_SPACE = "Spacebar" :=
  ⟨rfl, rfl⟩

/-- C3: every code from VK_F1 = 112 to VK_F20 = 131 is translated to "F"
followed by the decimal digits of code - VK_F1 + 1, for every keyboard layout;
112 gives "F1" and 131 gives "F20". -/
theorem ConvertKeyCodeToString_function_keys (f : Nat → Nat) (key_stroke : Int)
    (hlo : 112 ≤ key_stroke) (hhi : key_stroke ≤ 131) :
    ConvertKeyCodeToString f key_stroke = "F" ++ Nat.repr (key_stroke - 112 + 1).toNat
    ∧ 1 ≤ key_stroke - 112 + 1 ∧ key_stroke - 112 + 1 ≤ 20
    ∧ ConvertKeyCodeToString f 112 = "F1" ∧ ConvertKeyCodeToString f 131 = "F20"
    ∧ VK_F1 = 112 ∧ VK_F20 = 131 := by
  refine ⟨?_, by omega, by omega, rfl, rfl, rfl, rfl⟩
  interval_cases key_stroke <;> rfl

theorem ConvertKeyCodeToString_function_keys_witness :
    ConvertKeyCodeToString (fun _ => 0) 115 = "F" ++ Nat.repr ((115 : Int) - 112 + 1).toNat
    ∧ ConvertKeyCodeToString (fun _ => 0) 115 = "F4" :=
  ⟨(ConvertKeyCodeToString_function_keys (fun _ => 0) 115 (by decide) (by decide)).1, by decide⟩

/-- C4: codes 1 and 2 are translated to the empty string, for every keyboard
layout. -/
theorem ConvertKeyCodeToString_pointer_buttons (f : Nat → Nat) :
    ConvertKeyCodeToString f 1 = "" ∧ ConvertKeyCodeToString f 2 = "" :=
  ⟨rfl, rfl⟩

/-- C5: a key event that the hook callback dispatches (nCode ≥ 0, a function
bound) is queued with its own wParam, and whenever that queued call is run the
isKeyUp argument is true exactly when wParam is WM_KEYUP (0x101) or WM_SYSKEYUP
(0x105); WM_KEYDOWN and WM_SYSKEYDOWN give false. Enter key-down delivered
gives ("Enter", false) and Enter key-up delivered gives ("Enter", true). -/
theorem HookCallback_isKeyUp (f : Nat → Nat) (s : State) (cb : Nat) (nCode : Int)
    (wParam : Nat) (lParam : KBDLLHOOKSTRUCT) (hbound : s.tsfn = some cb) (hcode : nCode ≥ 0) :
    (HookCallback s nCode wParam lParam).1.queue = s.queue ++ [Job.call cb wParam]
    ∧ (∀ (s1 : State) (rest : List Job), s1.queue = Job.call cb wParam :: rest →
        ∃ key, (loopTurn f s1).trace
          = s1.trace ++ [Action.jsCall cb key (decide (wParam = 0x101 ∨ wParam = 0x105))])
    ∧ (wParam = 0x100 ∨ wParam = 0x104 → decide (wParam = 0x101 ∨ wParam = 0x105) = false)
    ∧ (s.queue = [] → lParam.vkCode = 13 →
        (loopTurn f (HookCallback s nCode wParam lParam).1).trace
          = s.trace ++ [Action.jsCall cb "Enter" (decide (wParam = 0x101 ∨ wParam = 0x105))])
    ∧ jsCalls (run f State.init
          [Op.start cb, Op.key nCode 0x100 (keyEvent 13), Op.loopTurn,
           Op.key nCode 0x101 (keyEvent 13), Op.loopTurn]).trace
        = [(cb, "Enter", false), (cb, "Enter", true)] := by
  have hq : (HookCallback s nCode wParam lParam).1
      = { s with kbdStruct := lParam, queue := s.queue ++ [Job.call cb wParam] } := by
    simp [HookCallback, hbound, hcode]
  refine ⟨by rw [hq], ?_, ?_, ?_, ?_⟩
  · intro s1 rest h1
    refine ⟨ConvertKeyCodeToString f (dwordToInt s1.kbdStruct.vkCode), ?_⟩
    simp [loopTurn, h1, isKeyUp_eq_decide]
  · rintro (h | h) <;> simp [h]
  · intro h0 hvk
    rw [hq]
    simp [loopTurn, h0, hvk, isKeyUp_eq_decide]
    rfl
  · simp [run, step, Start, ReleaseTSFN, State.init, State.emit, HookCallback, hcode, loopTurn,
      keyEvent, isKeyUp, WM_KEYUP, WM_SYSKEYUP, jsCalls]
    rfl

theorem HookCallback_isKeyUp_witness :
    (HookCallback (Start State.init 7) 0 0x105 (keyEvent 13)).1.queue
      = (Start State.init 7).queue ++ [Job.call 7 0x105] :=
  (HookCallback_isKeyUp (fun _ => 0) (Start State.init 7) 7 0 0x105 (keyEvent 13)
    (by decide) (by decide)).1

/-- C6, the code at the failing input: Enter goes down and Escape goes up
before the loop thread runs the first queued call. Both calls then receive
"Escape", the key last stored in kbdStruct; the first one pairs it with the
transition of the Enter event. The translation of the code of the first event
would have been "Enter". -/
theorem queued_call_reads_latest_kbdStruct (f : Nat → Nat) :
    jsCalls (run f State.init
        [Op.start 7, Op.key 0 WM_KEYDOWN (keyEvent 13), Op.key 0 WM_KEYUP (keyEvent 27),
         Op.loopTurn, Op.loopTurn]).trace
      = [(7, "Escape", false), (7, "Escape", true)]
    ∧ ConvertKeyCodeToString f (dwordToInt (keyEvent 13).vkCode) = "Enter" :=
  ⟨rfl, rfl⟩

/-- C7: without a bound function ReleaseTSFN and Stop leave the whole state,
trace included, unchanged (nothing released, no Stop signal, no call); and
Stop after Stop is the same state as one Stop, whose trace has grown by the
one release of the function that was bound, if one was. -/
theorem Stop_idempotent (s : State) :
    (s.tsfn = none → ReleaseTSFN s = s ∧ Stop s = s)
    ∧ Stop (Stop s) = Stop s
    ∧ (Stop s).tsfn = none
    ∧ (Stop (Stop s)).trace
        = s.trace ++ (match s.tsfn with
                      | some cb => [Action.release cb]
                      | none => []) := by
  have h2 : Stop (Stop s) = Stop s := ReleaseTSFN_of_unbound _ (ReleaseTSFN_unbinds s)
  refine ⟨fun h => ⟨ReleaseTSFN_of_unbound s h, ReleaseTSFN_of_unbound s h⟩, h2,
    ReleaseTSFN_unbinds s, ?_⟩
  rw [h2]
  unfold Stop ReleaseTSFN
  cases s.tsfn <;> simp

theorem Stop_idempotent_witness :
    Stop State.init = State.init
    ∧ Stop (Stop (Start State.init 7)) = Stop (Start State.init 7) :=
  ⟨((Stop_idempotent State.init).1 rfl).2, (Stop_idempotent (Start State.init 7)).2.1⟩

/-- C8: in the state produced by Stop, and in every state reached from it by
steps other than Start (key events, loop turns, further Stops, the worker
installing its hook), the hook callback leaves the state unchanged for every
nCode, wParam and key structure: nothing is queued, and what it returns is the
call of the next hook for that event. -/
theorem HookCallback_after_Stop (f : Nat → Nat) (s : State) (ops : List Op)
    (hops : ∀ op ∈ ops, op.isStart = false) (nCode : Int) (wParam : Nat)
    (lParam : KBDLLHOOKSTRUCT) :
    HookCallback (run f (Stop s) ops) nCode wParam lParam
      = (run f (Stop s) ops,
         { hook := (run f (Stop s) ops)._hook, nCode := nCode, wParam := wParam,
           lParam := lParam }) :=
  HookCallback_of_unbound _
    (run_keeps_unbound f ops (Stop s) (ReleaseTSFN_unbinds s) hops) nCode wParam lParam

theorem HookCallback_after_Stop_witness :
    (HookCallback (run (fun _ => 0) (Stop (Start State.init 7))
        [Op.key 0 WM_KEYDOWN (keyEvent 13), Op.loopTurn]) 0 WM_KEYUP (keyEvent 13)).1.queue
      = [] := by
  have h := HookCallback_after_Stop (fun _ => 0) (Start State.init 7)
    [Op.key 0 WM_KEYDOWN (keyEvent 13), Op.loopTurn] (by decide) 0 WM_KEYUP (keyEvent 13)
  rw [h]
  decide

/-- C9, the code at the failing input: Start, then Start again before the loop
thread has had a turn. The second Start only releases the function; the
finalizer that posts the Stop signal and joins is still queued when the second
worker thread is started, both threads are running, and the assignment to the
joinable nativeThread calls std::terminate. -/
theorem Start_while_active_spawns_before_join (f : Nat → Nat) :
    (run f State.init [Op.start 1, Op.start 2]).trace
      = [Action.log "Start!!!", Action.newTSFN 1, Action.spawn 0,
         Action.log "Start!!!", Action.release 1, Action.newTSFN 2, Action.spawn 1,
         Action.terminate]
    ∧ (run f State.init [Op.start 1, Op.start 2]).running = [0, 1]
    ∧ (run f State.init [Op.start 1, Op.start 2]).queue = [Job.finalize]
    ∧ (run f State.init [Op.start 1, Op.start 2]).terminated = true :=
  ⟨rfl, rfl, rfl, rfl⟩

/-- C10, as stated: with a failed install and a message pump that is then told
to stop, GetMessage is called on the worker thread. -/
theorem nativeThreadBody_failed_install_calls_GetMessage :
    ThreadAction.getMessage
      ∈ (nativeThreadBody none [⟨1, STOP_MESSAGE⟩, ⟨0, 0⟩]).2.1 := by
  decide

/-- C10, amended: when SetWindowsHookEx returns null the worker thread logs
"Failed to install hook!" and then runs the message pump exactly as after a
successful install: its next call is GetMessage, the calls that follow are
those of a thread whose install succeeded, and the thread function returns
exactly when some GetMessage returns 0. -/
theorem nativeThreadBody_failed_install (answers : List GetMessageResult) (h : Nat) :
    (nativeThreadBody none answers).2.1
      = ThreadAction.setWindowsHookEx :: ThreadAction.log "Failed to install hook!"
          :: (pump answers).1
    ∧ (nativeThreadBody (some h) answers).2.1
      = ThreadAction.setWindowsHookEx :: (pump answers).1
    ∧ (∃ rest, (pump answers).1 = ThreadAction.getMessage :: rest)
    ∧ (nativeThreadBody none answers).2.2 = (nativeThreadBody (some h) answers).2.2
    ∧ ((nativeThreadBody none answers).2.2 = true ↔ ∃ r ∈ answers, r.bRet = 0)
    ∧ (nativeThreadBody none answers).1 = none :=
  ⟨rfl, rfl, pump_head answers, rfl, pump_ends_iff answers, rfl⟩

end PushToTalk
